import Mathlib

/-!
Shallow embedding of the SinkSpace/SinkTravel booking server
(`src/server.js`, final snapshot: Sequelize models `Tour`, `User`,
`Cart`, `CartItem` plus the Express route handlers for
`/cart`, `/cart/add/:tourId`, `/cart/remove/:itemId`, `/login`,
`/register` and `/profile/update`).

Persistent state is modelled as an explicit `DB` record holding the
rows of the relevant tables; each handler becomes a pure function from
a `DB` (and request data) to a new `DB` and a response.  Numeric ids
are `Nat`, tour prices are `Int` (the source uses `DataTypes.FLOAT`,
but every price involved in the claims is integral and the handler
only adds and multiplies).  SQLite runs with `PRAGMA foreign_keys=ON`
(Sequelize's sqlite connection manager issues it), and
`Cart.belongsToMany(Tour, { through: CartItem })` installs a composite
unique constraint on `(CartId, TourId)`; both constraints are modelled
at the write operations that can violate them.
-/

namespace SinkTravel

/-- A `Tour` row: only the fields cart computations read. -/
structure Tour where
  id : Nat
  price : Int
deriving Repr, DecidableEq

/-- A `User` row (`username` unique, `password` stores the bcrypt hash). -/
structure User where
  id : Nat
  username : String
  password : String
  role : String
deriving Repr, DecidableEq

/-- A `Cart` row: `Cart.belongsTo(User)` foreign key `UserId`. -/
structure CartRec where
  id : Nat
  userId : Nat
deriving Repr, DecidableEq

/-- A `CartItem` row: join of cart and tour with a quantity
(`defaultValue: 1`). -/
structure CartItem where
  id : Nat
  cartId : Nat
  tourId : Nat
  quantity : Nat
deriving Repr, DecidableEq

/-- The relational store: `tours`, `users`, `carts`, `cart_items`
tables plus the autoincrement counters. -/
structure DB where
  tours : List Tour
  users : List User
  carts : List CartRec
  items : List CartItem
  nextCartId : Nat
  nextItemId : Nat
  nextUserId : Nat
deriving Repr, DecidableEq

/-- Model of `bcrypt.hash(raw, 10)`.  Only the contract matters for the
claims: hashing is deterministic in the model and `bcryptCompare`
succeeds exactly on the password the hash was produced from. -/
def bcryptHash (raw : String) : String :=
  "bcrypt10$" ++ raw

/-- Model of `bcrypt.compare(raw, hash)`. -/
def bcryptCompare (raw hash : String) : Bool :=
  hash == bcryptHash raw

/-! ## Cart engine: `POST /cart/add/:tourId` (src/server.js:539-565) -/

/-- JSON `{success, message}` payload of the cart endpoints. -/
inductive CartResponse where
  | ok (message : String)
  | fail (message : String)
deriving Repr, DecidableEq

/-- Lookup `Cart.findOne({ where: { UserId: userId } })` followed by
`Cart.create({ UserId: userId })` when absent (src/server.js:544-548). -/
def getOrCreateCart (db : DB) (userId : Nat) : DB × CartRec :=
  match db.carts.find? (fun c => c.userId == userId) with
  | some c => (db, c)
  | none =>
      ({ db with
          carts := db.carts ++ [⟨db.nextCartId, userId⟩],
          nextCartId := db.nextCartId + 1 },
        ⟨db.nextCartId, userId⟩)

/-- The `/cart/add/:tourId` handler body, sequential semantics: look up
(or lazily create) the user's cart, look up the `CartItem` for
`(cart.id, tourId)`, then either `update({quantity: cartItem.quantity + 1})`
or `CartItem.create({CartId, TourId})` with default quantity 1.  The
handler never consults the `Tour` table; a non-existent `tourId` only
fails at the insert itself, where the SQLite foreign-key constraint
rejects the row and the `catch` answers the generic 500 failure JSON. -/
def cartAdd (db : DB) (userId tourId : Nat) : DB × CartResponse :=
  let gc := getOrCreateCart db userId
  let db1 := gc.1
  let cart := gc.2
  match db1.items.find? (fun i => i.cartId == cart.id && i.tourId == tourId) with
  | some it =>
      ({ db1 with
          items := db1.items.map fun i =>
            if i.id == it.id then { i with quantity := it.quantity + 1 } else i },
        .ok "Тур добавлен в корзину")
  | none =>
      if (db1.tours.find? (fun t => t.id == tourId)).isSome then
        ({ db1 with
            items := db1.items ++ [⟨db1.nextItemId, cart.id, tourId, 1⟩],
            nextItemId := db1.nextItemId + 1 },
          .ok "Тур добавлен в корзину")
      else
        (db1, .fail "Ошибка добавления в корзину")

/-- Quantities of the cart lines recorded for `(userId, tourId)`:
the lines of the cart `Cart.findOne` would return whose `TourId`
matches. -/
def cartLineQuantities (db : DB) (userId tourId : Nat) : List Nat :=
  match db.carts.find? (fun c => c.userId == userId) with
  | none => []
  | some c =>
      (db.items.filter fun i => i.cartId == c.id && i.tourId == tourId).map
        (fun i => i.quantity)

/-- The Absent state of the per-`(user, tour)` state machine: no cart
line exists for the pair.  When the user has no cart yet the lazily
created cart gets id `db.nextCartId`, so Absent additionally demands
that no stray line references that fresh id. -/
def cartAbsent (db : DB) (userId tourId : Nat) : Bool :=
  match db.carts.find? (fun c => c.userId == userId) with
  | some c => db.items.all fun i => !(i.cartId == c.id && i.tourId == tourId)
  | none => db.items.all fun i => !(i.cartId == db.nextCartId)

/-! ### Helper lemmas about list operations -/

/-- Filtering commutes with a map that does not disturb the filter
predicate (the quantity bump of `/cart/add` leaves `cartId` and
`tourId` untouched). -/
theorem filter_map_of_pred_eq {α : Type} (f : α → α) (p : α → Bool)
    (hf : ∀ a, p (f a) = p a) (l : List α) :
    (l.map f).filter p = (l.filter p).map f := by
  induction l with
  | nil => rfl
  | cons a l ih =>
      simp only [List.map_cons, List.filter_cons, hf a]
      cases h : p a <;> simp [h, ih]

/-- Core of the double-add argument: if the user's cart lookup already
yields cart `c`, no line exists for `(c.id, t)` and the tour exists,
then two sequential `/cart/add` calls leave exactly one line for the
pair, with quantity 2. -/
theorem cartAdd_twice_core (db : DB) (u t : Nat) (c : CartRec)
    (hc : db.carts.find? (fun x => x.userId == u) = some c)
    (hitems : ∀ i ∈ db.items, (i.cartId == c.id && i.tourId == t) = false)
    (htour : (db.tours.find? (fun tr => tr.id == t)).isSome = true) :
    cartLineQuantities ((cartAdd (cartAdd db u t).1 u t).1) u t = [2] := by
  have hfind1 : db.items.find? (fun i => i.cartId == c.id && i.tourId == t) = none :=
    List.find?_eq_none.mpr (fun x hx => by simp [hitems x hx])
  have h1 : (cartAdd db u t).1 =
      { db with items := db.items ++ [⟨db.nextItemId, c.id, t, 1⟩],
                nextItemId := db.nextItemId + 1 } := by
    simp [cartAdd, getOrCreateCart, hc, hfind1, htour]
  have hfind2 :
      (db.items ++ [(⟨db.nextItemId, c.id, t, 1⟩ : CartItem)]).find?
        (fun i => i.cartId == c.id && i.tourId == t) =
        some ⟨db.nextItemId, c.id, t, 1⟩ := by
    rw [List.find?_append, hfind1]
    simp [List.find?]
  rw [h1]
  have h2 : (cartAdd { db with
      items := db.items ++ [⟨db.nextItemId, c.id, t, 1⟩],
      nextItemId := db.nextItemId + 1 } u t).1 =
      { db with
        items := (db.items ++ [(⟨db.nextItemId, c.id, t, 1⟩ : CartItem)]).map fun i =>
          if i.id == db.nextItemId then { i with quantity := 1 + 1 } else i,
        nextItemId := db.nextItemId + 1 } := by
    simp [cartAdd, getOrCreateCart, hc, hfind2]
  rw [h2]
  have hpres : ∀ i : CartItem,
      ((if i.id == db.nextItemId then { i with quantity := 1 + 1 } else i).cartId == c.id &&
        (if i.id == db.nextItemId then { i with quantity := 1 + 1 } else i).tourId == t) =
      (i.cartId == c.id && i.tourId == t) := by
    intro i
    cases h : i.id == db.nextItemId <;> simp [h]
  simp only [cartLineQuantities, hc]
  rw [filter_map_of_pred_eq _ _ hpres]
  have hnil : db.items.filter (fun i => i.cartId == c.id && i.tourId == t) = [] :=
    List.filter_eq_nil_iff.mpr (fun x hx => by simp [hitems x hx])
  simp [List.filter_append, hnil, List.filter_cons]

/-- C1: `addToCart` twice sequentially from the Absent state yields one
line with quantity 2, never two lines.  Stated for every store `db`,
user `u` and catalog tour `t` with no existing line for the pair. -/
theorem cartAdd_twice_from_absent (db : DB) (u t : Nat)
    (htour : (db.tours.find? (fun tr => tr.id == t)).isSome = true)
    (habs : cartAbsent db u t = true) :
    cartLineQuantities ((cartAdd (cartAdd db u t).1 u t).1) u t = [2] := by
  unfold cartAbsent at habs
  cases hc : db.carts.find? (fun x => x.userId == u) with
  | some c =>
      rw [hc] at habs
      exact cartAdd_twice_core db u t c hc
        (fun i hi => by
          simpa only [Bool.not_eq_true'] using List.all_eq_true.mp habs i hi) htour
  | none =>
      rw [hc] at habs
      have hc2 : (db.carts ++ [(⟨db.nextCartId, u⟩ : CartRec)]).find?
          (fun x => x.userId == u) = some ⟨db.nextCartId, u⟩ := by
        rw [List.find?_append, hc]
        simp [List.find?]
      have he : cartAdd db u t =
          cartAdd { db with carts := db.carts ++ [⟨db.nextCartId, u⟩],
                            nextCartId := db.nextCartId + 1 } u t := by
        simp only [cartAdd]
        rw [show getOrCreateCart db u =
          ({ db with carts := db.carts ++ [⟨db.nextCartId, u⟩],
                     nextCartId := db.nextCartId + 1 }, ⟨db.nextCartId, u⟩)
          from by simp [getOrCreateCart, hc]]
        rw [show getOrCreateCart { db with carts := db.carts ++ [⟨db.nextCartId, u⟩],
                                           nextCartId := db.nextCartId + 1 } u =
          ({ db with carts := db.carts ++ [⟨db.nextCartId, u⟩],
                     nextCartId := db.nextCartId + 1 }, ⟨db.nextCartId, u⟩)
          from by simp [getOrCreateCart, hc2]]
      rw [he]
      exact cartAdd_twice_core _ u t ⟨db.nextCartId, u⟩ hc2
        (fun i hi => by
          have := List.all_eq_true.mp habs i hi
          simp only [Bool.not_eq_true'] at this
          simp [this])
        htour

/-! ## Interleaved semantics of `/cart/add/:tourId`

Each `await` in the handler is a suspension point, so a concurrent
request may observe the store between any two of the handler's database
operations.  `AddPhase` is the handler's program counter; `addStep`
executes one database operation atomically, exactly the operations of
src/server.js:544-558.  The write step enforces the storage-layer
constraints: the composite unique key on `(CartId, TourId)` installed
by `belongsToMany ... through CartItem` and the `TourId` foreign key;
a rejected insert throws, which the handler's `catch` converts into
the failure response (phase `pDone false`). -/

inductive AddPhase where
  | pFindCart
  | pCreateCart
  | pFindItem (cartId : Nat)
  | pWrite (cartId : Nat) (found : Option CartItem)
  | pDone (ok : Bool)
deriving Repr, DecidableEq

/-- One atomic database operation of the `/cart/add` handler for user
`u` and tour `t`, starting from program counter `ph`. -/
def addStep (db : DB) (u t : Nat) (ph : AddPhase) : DB × AddPhase :=
  match ph with
  | .pFindCart =>
      match db.carts.find? (fun c => c.userId == u) with
      | some c => (db, .pFindItem c.id)
      | none => (db, .pCreateCart)
  | .pCreateCart =>
      ({ db with carts := db.carts ++ [⟨db.nextCartId, u⟩],
                 nextCartId := db.nextCartId + 1 },
        .pFindItem db.nextCartId)
  | .pFindItem cid =>
      (db, .pWrite cid (db.items.find? (fun i => i.cartId == cid && i.tourId == t)))
  | .pWrite cid none =>
      if (db.tours.find? (fun tr => tr.id == t)).isSome then
        if db.items.any (fun i => i.cartId == cid && i.tourId == t) then
          (db, .pDone false)
        else
          ({ db with items := db.items ++ [⟨db.nextItemId, cid, t, 1⟩],
                     nextItemId := db.nextItemId + 1 },
            .pDone true)
      else (db, .pDone false)
  | .pWrite _ (some it) =>
      ({ db with items := db.items.map fun i =>
          if i.id == it.id then { i with quantity := it.quantity + 1 } else i },
        .pDone true)
  | .pDone ok => (db, .pDone ok)

/-- Two concurrent `/cart/add` requests: the shared store and each
request's program counter. -/
structure TwoThreads where
  db : DB
  a : AddPhase
  b : AddPhase
deriving Repr, DecidableEq

/-- Run one atomic step of the thread selected by `pick`
(`false` = request A, `true` = request B). -/
def schedStep (u t : Nat) (s : TwoThreads) (pick : Bool) : TwoThreads :=
  if pick then
    let r := addStep s.db u t s.b
    { s with db := r.1, b := r.2 }
  else
    let r := addStep s.db u t s.a
    { s with db := r.1, a := r.2 }

/-- Run the two concurrent requests under an explicit interleaving. -/
def runSchedule (u t : Nat) (s : TwoThreads) : List Bool → TwoThreads
  | [] => s
  | p :: rest => runSchedule u t (schedStep u t s p) rest

/-- Store for the concurrency scenario: tour 1 in the catalog, user 7
already owns cart 1, no lines (the Absent state). -/
def db0c2 : DB := ⟨[⟨1, 100⟩], [], [⟨1, 7⟩], [], 2, 1, 1⟩

/-! ## `POST /cart/remove/:itemId` (src/server.js:567-576) -/

/-- The `/cart/remove/:itemId` handler: `CartItem.destroy({ where: { id:
itemId } })` and a success JSON.  The session user is available but the
handler never consults it — there is no ownership check before the
delete. -/
def cartRemove (db : DB) (userId itemId : Nat) : DB × CartResponse :=
  ({ db with items := db.items.filter fun i => !(i.id == itemId) },
    .ok "Тур удален из корзины")

/-- Store for the cross-user removal scenario: cart 1 belongs to user 1
and cart 2 to user 2; line 5 (tour 1, quantity 1) sits in user 2's
cart. -/
def dbCross : DB := ⟨[⟨1, 100⟩], [], [⟨1, 1⟩, ⟨2, 2⟩], [⟨5, 2, 1, 1⟩], 3, 6, 1⟩

/-! ## `GET /cart` (src/server.js:505-537) -/

/-- The rendered cart view: the joined `(Tour, quantity)` rows and the
computed total. -/
structure CartView where
  lines : List (Tour × Nat)
  total : Int
deriving Repr, DecidableEq

/-- The `/cart` handler body: find the user's cart with its tours
joined through `CartItem`; when no cart exists render the empty list
with `total = 0`; otherwise reduce `tour.price * CartItem.quantity`
over the joined rows starting from 0. -/
def viewCart (db : DB) (userId : Nat) : CartView :=
  match db.carts.find? (fun c => c.userId == userId) with
  | none => ⟨[], 0⟩
  | some c =>
      let ls := (db.items.filter fun i => i.cartId == c.id).filterMap fun i =>
        (db.tours.find? (fun t => t.id == i.tourId)).map fun t => (t, i.quantity)
      ⟨ls, ls.foldl (fun s p => s + p.1.price * (p.2 : Int)) 0⟩

/-- Store for the cart-view example: tours priced 100 and 50, user 1's
cart holds quantity 2 of the first and quantity 1 of the second. -/
def dbView : DB :=
  ⟨[⟨1, 100⟩, ⟨2, 50⟩], [], [⟨1, 1⟩], [⟨1, 1, 1, 2⟩, ⟨2, 1, 2, 1⟩], 2, 3, 1⟩

/-- Concrete store for witnesses: one catalog tour (id 1, price 100),
no users, carts or lines. -/
def db0 : DB := ⟨[⟨1, 100⟩], [], [], [], 1, 1, 1⟩

/-- Witness for C1 at a concrete input: user 5 adds tour 1 twice into
the empty store. -/
theorem cartAdd_twice_from_absent_witness :
    cartLineQuantities ((cartAdd (cartAdd db0 5 1).1 5 1).1) 5 1 = [2] :=
  cartAdd_twice_from_absent db0 5 1 (by decide) (by decide)

/-- C2: the handler runs its cart and line lookups and the following
write as separate awaited operations with no transaction or lock, so
two concurrent `addToCart(7, 1)` calls from the Absent state can both
observe "no line" before either writes.  Under the alternating
schedule A,B,A,B,A,B the first insert succeeds, the second is rejected
by the unique `(CartId, TourId)` key and reports failure, and the
store ends with a single line of quantity 1 — not quantity 2 as the
claim requires. -/
theorem cartAdd_concurrent_lost_update :
    (runSchedule 7 1 ⟨db0c2, .pFindCart, .pFindCart⟩
        [false, true, false, true, false, true]).db.items.map
          (fun i => i.quantity) = [1] ∧
    (runSchedule 7 1 ⟨db0c2, .pFindCart, .pFindCart⟩
        [false, true, false, true, false, true]).a = .pDone true ∧
    (runSchedule 7 1 ⟨db0c2, .pFindCart, .pFindCart⟩
        [false, true, false, true, false, true]).b = .pDone false := by
  refine ⟨rfl, rfl, rfl⟩

/-- C3: `removeFromCart` performs no ownership check.  User 1 removes
line 5, which lies in user 2's cart; the line is deleted and the
handler answers the success JSON rather than Forbidden. -/
theorem cartRemove_cross_user_deletes :
    (cartRemove dbCross 1 5).1.items = [] ∧
    (cartRemove dbCross 1 5).2 = .ok "Тур удален из корзины" := by
  refine ⟨rfl, rfl⟩

/-- C4: `addToCart` never consults the catalog.  With an empty `tours`
table, user 7 adds tour 99: the handler lazily creates the cart first,
the line insert is then rejected by the foreign key and the `catch`
answers the generic failure JSON — no `TourNotFound` error exists, and
the freshly created cart persists. -/
theorem cartAdd_missing_tour_creates_cart :
    (cartAdd ⟨[], [], [], [], 1, 1, 1⟩ 7 99).1.carts = [⟨1, 7⟩] ∧
    (cartAdd ⟨[], [], [], [], 1, 1, 1⟩ 7 99).1.items = [] ∧
    (cartAdd ⟨[], [], [], [], 1, 1, 1⟩ 7 99).2 =
      .fail "Ошибка добавления в корзину" := by
  refine ⟨rfl, rfl, rfl⟩

/-- C5: `viewCart` never errors: a user without a cart gets the empty
view with total 0, and otherwise the total equals the sum over the
joined lines of `tour.price * quantity`. -/
theorem viewCart_total_spec (db : DB) (u : Nat) :
    (db.carts.find? (fun c => c.userId == u) = none → viewCart db u = ⟨[], 0⟩) ∧
    (viewCart db u).total =
      ((viewCart db u).lines.map fun p => p.1.price * (p.2 : Int)).sum := by
  constructor
  · intro h
    simp [viewCart, h]
  · cases hc : db.carts.find? (fun c => c.userId == u) with
    | none => simp [viewCart, hc]
    | some c =>
        simp only [viewCart, hc]
        rw [List.sum_eq_foldl, List.foldl_map]

/-- Witness for C5: user 5 has no cart in `db0` and gets the empty
view; the example store (price 100 × 2 plus price 50 × 1) totals
250. -/
theorem viewCart_total_spec_witness :
    viewCart db0 5 = ⟨[], 0⟩ ∧ (viewCart dbView 1).total = 250 :=
  ⟨(viewCart_total_spec db0 5).1 rfl, by decide⟩

/-! ## `POST /login` (src/server.js:743-763) -/

/-- Outcome of the `/login` handler: a session `{id, username, role}`
and a redirect on success, or the re-rendered login page with its
error message on failure. -/
inductive LoginResult where
  | success (id : Nat) (username role : String)
  | failure (message : String)
deriving Repr, DecidableEq

/-- The `/login` handler body: `User.findOne({ where: { username } })`,
then `bcrypt.compare`; an unknown username and a wrong password fall
into the same `else` branch rendering the same error message. -/
def login (db : DB) (username password : String) : LoginResult :=
  match db.users.find? (fun u => u.username == username) with
  | some u =>
      if bcryptCompare password u.password then
        .success u.id u.username u.role
      else
        .failure "Неверный логин или пароль"
  | none => .failure "Неверный логин или пароль"

/-- C6: login with a known username but wrong password and login with
an unknown username produce identical results — same error kind and
same message — so responses do not reveal which usernames exist. -/
theorem login_no_username_enumeration (db : DB)
    (u1 p1 u2 p2 : String) (usr : User)
    (h1 : db.users.find? (fun u => u.username == u1) = some usr)
    (h2 : bcryptCompare p1 usr.password = false)
    (h3 : db.users.find? (fun u => u.username == u2) = none) :
    login db u1 p1 = login db u2 p2 := by
  simp [login, h1, h2, h3]

/-- Store with one registered user for the identity witnesses. -/
def dbAuth : DB :=
  ⟨[], [⟨1, "admin", bcryptHash "adminpass", "admin"⟩], [], [], 1, 1, 2⟩

/-- Witness for C6: wrong password for `admin` versus unknown user
`ghost`. -/
theorem login_no_username_enumeration_witness :
    login dbAuth "admin" "wrong" = login dbAuth "ghost" "x" :=
  login_no_username_enumeration dbAuth "admin" "wrong" "ghost" "x"
    ⟨1, "admin", bcryptHash "adminpass", "admin"⟩ (by decide) (by decide) (by decide)

/-! ## `POST /register` (src/server.js:722-741) and the
`User.beforeCreate` hook (src/server.js:410-415) -/

/-- Outcome of the `/register` handler: redirect to `/login`, the
400 re-render for missing fields, or the failure of `User.create`
when the unique constraint on `username` rejects the insert (the
route's `catch` then renders the error page). -/
inductive RegisterResult where
  | created (id : Nat)
  | duplicateUsername
  | badRequest
deriving Repr, DecidableEq

/-- The `/register` handler body: reject empty username or password
(JS truthiness of `username && password`), otherwise `User.create`,
where the unique constraint on `username` rejects a duplicate and the
`beforeCreate` hook replaces the password with its bcrypt hash before
the row is persisted. -/
def register (db : DB) (username password : String) : DB × RegisterResult :=
  if username == "" || password == "" then
    (db, .badRequest)
  else
    match db.users.find? (fun u => u.username == username) with
    | some _ => (db, .duplicateUsername)
    | none =>
        ({ db with
            users := db.users ++ [⟨db.nextUserId, username, bcryptHash password, "client"⟩],
            nextUserId := db.nextUserId + 1 },
          .created db.nextUserId)

/-- C7: registering an already-taken username fails with the
duplicate-username constraint violation and leaves the whole user
table — in particular the existing user's stored password hash —
unchanged. -/
theorem register_duplicate_keeps_store (db : DB) (username password : String)
    (usr : User)
    (hu : username ≠ "") (hp : password ≠ "")
    (h : db.users.find? (fun u => u.username == username) = some usr) :
    register db username password = (db, .duplicateUsername) := by
  simp [register, hu, hp, h]

/-- Witness for C7: re-registering `admin` against `dbAuth`. -/
theorem register_duplicate_keeps_store_witness :
    register dbAuth "admin" "newpass" = (dbAuth, .duplicateUsername) :=
  register_duplicate_keeps_store dbAuth "admin" "newpass"
    ⟨1, "admin", bcryptHash "adminpass", "admin"⟩ (by decide) (by decide) (by decide)

/-! ## `User.beforeUpdate` hook (src/server.js:417-421) and
`POST /profile/update` (src/server.js:603-630) -/

/-- The attribute values an `update` call sets on a `User` instance. -/
structure UpdateData where
  username : Option String
  password : Option String
deriving Repr, DecidableEq

/-- Model of `user.update(values)` with the `beforeUpdate` hook: the provided
attributes are set, and when `user.changed('password')` — the
password attribute was set to a value different from the stored one —
the hook replaces it with its bcrypt hash before the save. -/
def userUpdate (u : User) (d : UpdateData) : User :=
  let u1 := { u with username := d.username.getD u.username }
  match d.password with
  | none => u1
  | some p => if p == u.password then u1 else { u1 with password := bcryptHash p }

/-- C8: frame condition on the password hash.  An update that does not
change the password attribute (not set, or set to the stored value so
`changed('password')` is false) leaves the stored hash exactly as it
was; an update that changes it stores the bcrypt hash of the new
value. -/
theorem userUpdate_password_frame (u : User) (d : UpdateData) :
    (d.password = none → (userUpdate u d).password = u.password) ∧
    (d.password = some u.password → (userUpdate u d).password = u.password) ∧
    (∀ p, d.password = some p → p ≠ u.password →
      (userUpdate u d).password = bcryptHash p) := by
  refine ⟨fun h => ?_, fun h => ?_, fun p h hne => ?_⟩
  · simp [userUpdate, h]
  · simp [userUpdate, h]
  · simp [userUpdate, h, hne]

/-- Witness for C8: updating only the username keeps the hash,
updating the password stores the new hash. -/
theorem userUpdate_password_frame_witness :
    (userUpdate ⟨1, "admin", bcryptHash "adminpass", "admin"⟩ ⟨some "root", none⟩).password =
      bcryptHash "adminpass" :=
  (userUpdate_password_frame ⟨1, "admin", bcryptHash "adminpass", "admin"⟩
    ⟨some "root", none⟩).1 rfl

/-- Outcome of the `/profile/update` handler. -/
inductive ProfileResult where
  | redirectProfile
  | wrongCurrentPassword
  | sessionUserMissing
deriving Repr, DecidableEq

/-- The `/profile/update` handler body: fetch the session user; when a
new password is supplied (JS truthiness: non-empty), demand a current
password that `bcrypt.compare`s against the stored hash, else answer
the 400 re-render without touching the record; otherwise update the
record (username always, password only when supplied) through
`user.update`, which triggers the `beforeUpdate` hook. -/
def profileUpdate (db : DB) (sessionUserId : Nat)
    (username currentPassword newPassword : String) : DB × ProfileResult :=
  match db.users.find? (fun u => u.id == sessionUserId) with
  | none => (db, .sessionUserMissing)
  | some usr =>
      if newPassword == "" then
        ({ db with users := db.users.map fun u =>
            if u.id == usr.id then userUpdate u ⟨some username, none⟩ else u },
          .redirectProfile)
      else
        if currentPassword == "" || !(bcryptCompare currentPassword usr.password) then
          (db, .wrongCurrentPassword)
        else
          ({ db with users := db.users.map fun u =>
              if u.id == usr.id then userUpdate u ⟨some username, some newPassword⟩ else u },
            .redirectProfile)

/-- C10: a profile update supplying a non-empty new password is
accepted only when the current password matches the stored hash; a
missing or wrong current password is answered with the error and the
store — username and password hash included — is left untouched.
When the current password does match, the session user's row stores
the bcrypt hash of the new password. -/
theorem profileUpdate_requires_current_password (db : DB) (uid : Nat)
    (username currentPassword newPassword : String) (usr : User)
    (hfind : db.users.find? (fun u => u.id == uid) = some usr)
    (hnew : newPassword ≠ "") :
    ((currentPassword = "" ∨ bcryptCompare currentPassword usr.password = false) →
      profileUpdate db uid username currentPassword newPassword =
        (db, .wrongCurrentPassword)) ∧
    (currentPassword ≠ "" → bcryptCompare currentPassword usr.password = true →
      (profileUpdate db uid username currentPassword newPassword).1.users =
        db.users.map fun u =>
          if u.id == usr.id then userUpdate u ⟨some username, some newPassword⟩ else u) := by
  constructor
  · rintro (h | h) <;> simp [profileUpdate, hfind, hnew, h]
  · intro hcur hcmp
    simp [profileUpdate, hfind, hnew, hcur, hcmp]

/-- Witness for C10: user 1 in `dbAuth` tries to change the password
with a wrong current password (rejected, store unchanged) — discharged
through the theorem — and with the right one (accepted). -/
theorem profileUpdate_requires_current_password_witness :
    profileUpdate dbAuth 1 "admin" "guess" "newpass" = (dbAuth, .wrongCurrentPassword) :=
  (profileUpdate_requires_current_password dbAuth 1 "admin" "guess" "newpass"
    ⟨1, "admin", bcryptHash "adminpass", "admin"⟩ (by decide) (by decide)).1
    (Or.inr (by decide))

/-! ## `requireAuth` middleware and the cart routes
(src/server.js:459-464, 505, 539, 567) -/

/-- The session payload `{id, username, role}` set at login. -/
structure SessionUser where
  id : Nat
  username : String
  role : String
deriving Repr, DecidableEq

/-- HTTP responses the cart routes produce. -/
inductive HttpResponse where
  | redirect (location : String)
  | json (success : Bool) (message : String)
  | render (view : CartView)
deriving Repr, DecidableEq

/-- Whether a response is a JSON payload. -/
def HttpResponse.isJson : HttpResponse → Bool
  | .json _ _ => true
  | _ => false

/-- The `requireAuth` middleware: with no session user it answers
`res.redirect('/login')` — for every request method alike — and
otherwise passes control to the route handler. -/
def requireAuth (sess : Option SessionUser)
    (next : SessionUser → DB × HttpResponse) (db : DB) : DB × HttpResponse :=
  match sess with
  | none => (db, .redirect "/login")
  | some su => next su

/-- Route `GET /cart` behind `requireAuth`. -/
def cartGetRoute (sess : Option SessionUser) (db : DB) : DB × HttpResponse :=
  requireAuth sess (fun su => (db, .render (viewCart db su.id))) db

/-- The cart endpoints' `{success, message}` body as an HTTP
response. -/
def CartResponse.toJson : CartResponse → HttpResponse
  | .ok m => .json true m
  | .fail m => .json false m

/-- Route `POST /cart/add/:tourId` behind `requireAuth`. -/
def cartAddRoute (sess : Option SessionUser) (db : DB) (tourId : Nat) :
    DB × HttpResponse :=
  requireAuth sess
    (fun su =>
      let r := cartAdd db su.id tourId
      (r.1, r.2.toJson)) db

/-- Route `POST /cart/remove/:itemId` behind `requireAuth`. -/
def cartRemoveRoute (sess : Option SessionUser) (db : DB) (itemId : Nat) :
    DB × HttpResponse :=
  requireAuth sess
    (fun su =>
      let r := cartRemove db su.id itemId
      (r.1, r.2.toJson)) db

/-- C9 counterexample: an unauthenticated `POST /cart/add/1` is
answered by `requireAuth` with the `/login` redirect, not with a JSON
failure payload as the claim states. -/
theorem unauthenticated_post_not_json :
    (cartAddRoute none db0 1).2 = .redirect "/login" ∧
    (cartAddRoute none db0 1).2.isJson = false := by
  refine ⟨rfl, rfl⟩

/-- C9 amended: every unauthenticated request to the cart routes —
`GET /cart` as well as the two POST JSON endpoints — is redirected to
`/login` by the shared `requireAuth` middleware. -/
theorem unauthenticated_cart_routes_redirect (db : DB) (tourId itemId : Nat) :
    (cartGetRoute none db).2 = .redirect "/login" ∧
    (cartAddRoute none db tourId).2 = .redirect "/login" ∧
    (cartRemoveRoute none db itemId).2 = .redirect "/login" := by
  refine ⟨rfl, rfl, rfl⟩

end SinkTravel
